import Mathlib

/-!
# Verification development for the Nawy apartment-listing application

Shallow embedding of the backend (Express/Prisma services, zod validators,
controllers) and of the relevant frontend logic (client pagination state
machine, grid memo comparator, resilient image loader), together with
theorems settling the specification claims.

Modelling conventions:
* JavaScript numbers that survive validation are modelled as `Nat`/`Int`;
  raw numeric values (before zod's integrality check) as `Rat`.
* Prisma rows are Lean structures; the database table is a `List` of rows.
  Every column of the `Apartment` table is declared `NOT NULL` by the
  migration (`CREATE TABLE "Apartment" ... "project" TEXT NOT NULL`), so
  all row fields — in particular `project` — are plain, non-optional
  values.
* Fallible operations return `Option`/an explicit outcome structure.
-/

namespace Nawy

/-- Lower-case a string character-wise (ASCII case folding, the common
core of `toLowerCase` and of Prisma's insensitive mode). -/
def lowerChars (s : String) : List Char :=
  s.toList.map Char.toLower

/-- Case-insensitive substring test, modelling Prisma's
`{ contains: needle, mode: 'insensitive' }` on a text column: both sides are
lower-cased and we ask whether `needle` occurs inside `hay`. -/
def containsCI (hay needle : String) : Bool :=
  decide (lowerChars needle <:+: lowerChars hay)

/-- Case-insensitive equality test, modelling Prisma's
`{ equals: x, mode: 'insensitive' }`. -/
def eqCI (a b : String) : Bool :=
  lowerChars a == lowerChars b

/-- An apartment row, as stored by Prisma (`model Apartment`).  `price` is a
`Decimal` column, modelled as `Rat`; timestamps are modelled as integers.
Every column is `NOT NULL` per the migration, so all fields are plain
values. -/
structure Apartment where
  id : String
  name : String
  unitNumber : String
  project : String
  bedrooms : Nat
  bathrooms : Nat
  price : Rat
  area : Rat
  address : String
  city : String
  country : String
  description : String
  images : List String
  amenities : List String
  createdAt : Int
  updatedAt : Int
  deriving DecidableEq, Repr

/-- The validated listing query (`ListApartmentQuery` inferred from
`listApartmentQuerySchema`): optional `search` and `project` strings plus
validated `page`/`pageSize` numbers. -/
structure ListApartmentQuery where
  search : Option String
  project : Option String
  page : Nat
  pageSize : Nat
  deriving DecidableEq, Repr

/-- JavaScript truthiness of an optional string (`if (search)` in
`listApartments`): `undefined` and the empty string are falsy. -/
def strTruthy : Option String → Bool
  | none => false
  | some s => s ≠ ""

/-- The `search` OR-group of the `where` clause built by `listApartments`:
name OR unitNumber OR project contains the needle, case-insensitively. -/
def searchMatches (s : String) (a : Apartment) : Bool :=
  containsCI a.name s || containsCI a.unitNumber s || containsCI a.project s

/-- The `project` filter of the `where` clause: the project column contains
the needle, case-insensitively. -/
def projectMatches (p : String) (a : Apartment) : Bool :=
  containsCI a.project p

/-- The full `where` clause of `listApartments`: the `search` OR-group is
added only when `search` is truthy, the `project` condition only when
`project` is truthy, and the two combine conjunctively. -/
def whereMatches (q : ListApartmentQuery) (a : Apartment) : Bool :=
  (if strTruthy q.search then searchMatches (q.search.getD "") a else true) &&
    (if strTruthy q.project then projectMatches (q.project.getD "") a else true)

/-- `orderBy: { createdAt: 'desc' }`: newest first. -/
def createdDescLe (a b : Apartment) : Bool :=
  decide (b.createdAt ≤ a.createdAt)

/-- The pagination metadata returned by `listApartments`. -/
structure ListMeta where
  page : Nat
  pageSize : Nat
  total : Nat
  totalPages : Nat
  deriving DecidableEq, Repr

/-- The response of `listApartments`: a page of items plus metadata. -/
structure ListResponse where
  items : List Apartment
  meta : ListMeta
  deriving DecidableEq, Repr

/-- `Math.ceil(total / pageSize)` — exact rational division then ceiling,
clamped to `Nat`. -/
def jsCeilDiv (total pageSize : Nat) : Nat :=
  (⌈(total : ℚ) / (pageSize : ℚ)⌉ : ℤ).toNat

/-- `listApartments` (apartmentService.ts): builds the `where` clause,
computes `skip = (page-1)*pageSize`, runs the page fetch
(`findMany` ordered by `createdAt` descending with `skip`/`take`) and the
`count` over the same filter, and assembles the response with
`totalPages = Math.ceil(total / pageSize)`. -/
def listApartments (q : ListApartmentQuery) (store : List Apartment) :
    ListResponse :=
  let filtered := store.filter (whereMatches q)
  let sorted := filtered.mergeSort createdDescLe
  let skip := (q.page - 1) * q.pageSize
  let items := (sorted.drop skip).take q.pageSize
  let total := filtered.length
  { items := items
    meta :=
      { page := q.page
        pageSize := q.pageSize
        total := total
        totalPages := jsCeilDiv total q.pageSize } }

/-- JavaScript `new Set(xs)` materialised as an array: keeps the first
occurrence of each element, in encounter order. -/
def jsSetDedup {α : Type} [DecidableEq α] : List α → List α
  | [] => []
  | x :: xs => x :: jsSetDedup (xs.filter (· ≠ x))
termination_by l => l.length
decreasing_by
  simpa using Nat.lt_succ_of_le (List.length_filter_le _ xs)

/-- JavaScript truthiness of a string, as used by `.filter(Boolean)` in
`listProjects`: the empty string is falsy. -/
def jsStrTruthy (s : String) : Bool :=
  s ≠ ""

/-- Lexicographic comparison used to model JavaScript's default
`Array.prototype.sort()` on strings. -/
def strLe (a b : String) : Bool :=
  decide (a ≤ b)

/-- `listProjects` (apartmentService.ts): select the `project` column of
every row, deduplicate via `Set`, drop falsy entries (for `NOT NULL` text
columns, exactly the empty string) with `.filter(Boolean)`, and sort
ascending. -/
def listProjects (store : List Apartment) : List String :=
  let projects := store.map (·.project)
  let unique := (jsSetDedup projects).filter jsStrTruthy
  unique.mergeSort strLe

/-- The domain error type (`HttpError`): a status code plus a message. -/
structure HttpError where
  statusCode : Nat
  message : String
  deriving DecidableEq, Repr

/-- The validated creation payload (`CreateApartmentInput` inferred from
`createApartmentSchema`): after validation `bedrooms`/`bathrooms` are
non-negative integers and `images`/`amenities` have been defaulted. -/
structure CreateApartmentInput where
  name : String
  unitNumber : String
  project : String
  bedrooms : Nat
  bathrooms : Nat
  price : Rat
  area : Rat
  address : String
  city : String
  country : String
  description : String
  images : List String
  amenities : List String
  deriving DecidableEq, Repr

/-- The duplicate check of `createApartment`: `findFirst` with
case-insensitive equality on both `unitNumber` and `project`. -/
def pairConflict (input : CreateApartmentInput) (a : Apartment) : Bool :=
  eqCI a.unitNumber input.unitNumber && eqCI a.project input.project

/-- Result of a state-passing service call: the table after the call plus
the outcome returned to the controller. -/
structure CreateResult where
  store : List Apartment
  outcome : Except HttpError Apartment
  deriving Repr

/-- `createApartment` (apartmentService.ts): look for an existing row with
the same `(project, unitNumber)` pair case-insensitively; if one exists,
throw `HttpError(409, ...)` without writing; otherwise insert a new row
with server-generated `id` and timestamps and return it. -/
def createApartment (input : CreateApartmentInput) (newId : String)
    (now : Int) (store : List Apartment) : CreateResult :=
  if store.any (pairConflict input) then
    { store := store
      outcome := .error
        ⟨409, "Apartment with the same unit number already exists in this project"⟩ }
  else
    let apt : Apartment :=
      { id := newId
        name := input.name
        unitNumber := input.unitNumber
        project := input.project
        bedrooms := input.bedrooms
        bathrooms := input.bathrooms
        price := input.price
        area := input.area
        address := input.address
        city := input.city
        country := input.country
        description := input.description
        images := input.images
        amenities := input.amenities
        createdAt := now
        updatedAt := now }
    { store := store ++ [apt], outcome := .ok apt }

/-! ## Validators (`apartmentValidators.ts`) -/

/-- Parse a non-empty all-digit character list as a natural number. -/
def parseDigits (cs : List Char) : Option Nat :=
  if cs = [] then none
  else if cs.all Char.isDigit then
    some (cs.foldl (fun n c => 10 * n + (c.toNat - 48)) 0)
  else none

/-- Parse an unsigned decimal literal (`123`, `1.5`, `.5`, `1.`). -/
def parseDecimal (cs : List Char) : Option ℚ :=
  let intPart := cs.takeWhile (· ≠ '.')
  match cs.dropWhile (· ≠ '.') with
  | [] => (parseDigits intPart).map (fun n => (n : ℚ))
  | '.' :: frac =>
    if frac.any (· = '.') then none
    else
      match intPart, frac with
      | [], [] => none
      | [], f => (parseDigits f).map (fun n => (n : ℚ) / 10 ^ f.length)
      | i, [] => (parseDigits i).map (fun n => (n : ℚ))
      | i, f => do
        let a ← parseDigits i
        let b ← parseDigits f
        pure ((a : ℚ) + (b : ℚ) / 10 ^ f.length)
  | _ => none

/-- Whitespace characters stripped by the `Number` coercion. -/
def jsWhitespace (c : Char) : Bool :=
  c = ' ' || c = '\t' || c = '\n' || c = '\r'

/-- Modelled from the spec: the JavaScript `Number(string)` coercion that
`z.coerce.number()` applies (the zod library itself is not part of the
repository).  Whitespace is trimmed, the empty string coerces to `0`, an
optional sign is followed by a decimal literal; anything else is `NaN`,
modelled as `none`.  Hexadecimal and exponent forms are out of scope. -/
def jsNumber (s : String) : Option ℚ :=
  let t := ((s.toList.dropWhile jsWhitespace).reverse.dropWhile
    jsWhitespace).reverse
  match t with
  | [] => some 0
  | '+' :: cs => parseDecimal cs
  | '-' :: cs => (parseDecimal cs).map Neg.neg
  | cs => parseDecimal cs

/-- The raw listing query string (`req.query`): each parameter is either
absent or a string. -/
structure RawListQuery where
  search : Option String
  project : Option String
  page : Option String
  pageSize : Option String
  deriving DecidableEq, Repr

/-- `listApartmentQuerySchema.safeParse`: `search`/`project` are optional
strings passed through; `page` is coerced to a number that must be an
integer `≥ 1`, defaulting to `1` when absent; `pageSize` likewise must be
an integer in `[1, 100]`, defaulting to `10`. -/
def parseListQuery (raw : RawListQuery) : Option ListApartmentQuery := do
  let page ←
    match raw.page with
    | none => some 1
    | some s => do
      let q ← jsNumber s
      if q.den = 1 ∧ 1 ≤ q then some q.num.toNat else none
  let pageSize ←
    match raw.pageSize with
    | none => some 10
    | some s => do
      let q ← jsNumber s
      if q.den = 1 ∧ 1 ≤ q ∧ q ≤ 100 then some q.num.toNat else none
  pure { search := raw.search, project := raw.project,
         page := page, pageSize := pageSize }

/-- A character allowed after the first one in a URL scheme. -/
def schemeChar (c : Char) : Bool :=
  c.isAlphanum || c = '+' || c = '-' || c = '.'

/-- Modelled from the spec: "images must be well-formed URLs" —
`z.string().url()` delegates to the host's URL parser, which is not part
of the repository.  We require an alphabetic-initial scheme, a colon and a
non-empty remainder. -/
def isValidURL (s : String) : Bool :=
  let cs := s.toList
  match cs.takeWhile (· ≠ ':'), cs.dropWhile (· ≠ ':') with
  | c :: rest, ':' :: tail => c.isAlpha && rest.all schemeChar && !tail.isEmpty
  | _, _ => false

/-- The raw (typed) creation payload: every schema field, with the two
optional arrays still optional. -/
structure RawCreateInput where
  name : String
  unitNumber : String
  project : String
  bedrooms : Rat
  bathrooms : Rat
  price : Rat
  area : Rat
  address : String
  city : String
  country : String
  description : String
  images : Option (List String)
  amenities : Option (List String)
  deriving DecidableEq, Repr

/-- `createApartmentSchema.safeParse` on a typed payload: every string
field needs `min(1)`, `bedrooms`/`bathrooms` must be integers `≥ 0`,
`price` non-negative, `area` positive, each image a well-formed URL, each
amenity a non-empty string; `images`/`amenities` default to `[]`. -/
def createApartmentCheck (r : RawCreateInput) : Option CreateApartmentInput :=
  if r.name ≠ "" ∧ r.unitNumber ≠ "" ∧ r.project ≠ "" ∧
      r.bedrooms.den = 1 ∧ 0 ≤ r.bedrooms ∧
      r.bathrooms.den = 1 ∧ 0 ≤ r.bathrooms ∧
      0 ≤ r.price ∧ 0 < r.area ∧
      r.address ≠ "" ∧ r.city ≠ "" ∧ r.country ≠ "" ∧ r.description ≠ "" ∧
      (r.images.getD []).all isValidURL = true ∧
      (r.amenities.getD []).all (· ≠ "") = true then
    some
      { name := r.name
        unitNumber := r.unitNumber
        project := r.project
        bedrooms := r.bedrooms.num.toNat
        bathrooms := r.bathrooms.num.toNat
        price := r.price
        area := r.area
        address := r.address
        city := r.city
        country := r.country
        description := r.description
        images := r.images.getD []
        amenities := r.amenities.getD [] }
  else none

/-! ## Controllers (`apartmentController.ts`) -/

/-- Response of the listing controller: `200` with a body, or `400` when
`safeParse` fails. -/
inductive ListCtrlResponse where
  | ok (body : ListResponse)
  | badRequest
  deriving DecidableEq, Repr

/-- `listApartments` controller: validate the query first; on failure
respond `400` without touching the service; otherwise delegate. -/
def listApartmentsController (raw : RawListQuery) (store : List Apartment) :
    ListCtrlResponse :=
  match parseListQuery raw with
  | none => .badRequest
  | some q => .ok (listApartments q store)

/-- Response of the creation controller: `201` with the created row, `400`
on validation failure, or a propagated `HttpError`. -/
inductive CreateCtrlResponse where
  | created (body : Apartment)
  | badRequest
  | errorResponse (status : Nat) (message : String)
  deriving DecidableEq, Repr

/-- The `errorHandler` middleware (middleware/errorHandlers.ts): every
error that reaches it — whatever its type or status — is answered with
`500 { message: 'Internal server error' }`. -/
def errorHandler (_err : HttpError) : Nat × String :=
  (500, "Internal server error")

/-- `createApartment` controller: validate the body first; on failure
respond `400` without touching the service; otherwise delegate and return
`201` on success.  Unlike the list controller, its catch block has no
`instanceof HttpError` branch: it only calls `next(error)`, so a thrown
service error (including the 409 conflict) lands in the `errorHandler`
middleware and is answered as a generic 500. -/
def createApartmentController (raw : RawCreateInput) (newId : String)
    (now : Int) (store : List Apartment) :
    CreateCtrlResponse × List Apartment :=
  match createApartmentCheck raw with
  | none => (.badRequest, store)
  | some input =>
    let r := createApartment input newId now store
    match r.outcome with
    | .ok apt => (.created apt, r.store)
    | .error e => (.errorResponse (errorHandler e).1 (errorHandler e).2, r.store)

/-! ## Client data controller (`ApartmentsClient.tsx`) -/

/-- The interactive state owned by `ApartmentsClient`: search text, selected
project, current page, and the last known `meta.totalPages` (JavaScript
numbers, modelled as integers). -/
structure ClientState where
  search : String
  project : String
  page : Int
  totalPages : Int
  deriving DecidableEq, Repr

/-- The user-driven transitions of `ApartmentsClient`: a filter submission
(`handleFilter`), the Previous button (`onPrev`) and the Next button
(`onNext`). -/
inductive ClientEvent where
  | filterChange (s p : String)
  | prev
  | next
  deriving DecidableEq, Repr

/-- The state transition function of `ApartmentsClient`:
`handleFilter` stores the new filters and resets `page` to `1`;
`onPrev` sets `page` to `Math.max(1, p - 1)`;
`onNext` sets `page` to `Math.min(meta.totalPages, p + 1)`. -/
def clientStep (st : ClientState) : ClientEvent → ClientState
  | .filterChange s p => { st with search := s, project := p, page := 1 }
  | .prev => { st with page := max 1 (st.page - 1) }
  | .next => { st with page := min st.totalPages (st.page + 1) }

/-! ## Grid memoisation (`ApartmentGrid.tsx`) -/

/-- The frontend `Apartment` interface (types/apartment.ts): all-string
identifiers and ISO timestamp strings, numbers for the numeric fields. -/
structure ClientApartment where
  id : String
  name : String
  unitNumber : String
  project : String
  bedrooms : Nat
  bathrooms : Nat
  price : Rat
  area : Rat
  address : String
  city : String
  country : String
  description : String
  images : List String
  amenities : List String
  createdAt : String
  updatedAt : String
  deriving DecidableEq, Repr

/-- The `(identifier, last-updated timestamp)` pair the re-render guard
looks at (`itemsKey` builds the string ``id:updatedAt`` from the same
fields). -/
def itemKey (a : ClientApartment) : String × String :=
  (a.id, a.updatedAt)

/-- The custom `React.memo` comparator of `ApartmentGrid`: reject on length
mismatch, then compare `id` and `updatedAt` of the items pointwise, in
order. -/
def gridPropsEqual (prev next : List ClientApartment) : Bool :=
  if prev.length ≠ next.length then false
  else (prev.zip next).all fun ab =>
    ab.1.id == ab.2.id && ab.1.updatedAt == ab.2.updatedAt

/-- `React.memo` semantics: the memoised grid re-renders exactly when the
comparator returns `false`. -/
def gridRerenders (prev next : List ClientApartment) : Bool :=
  !gridPropsEqual prev next

/-! ## Resilient image loader (`SafeImage.tsx`) -/

/-- The hook state of `SafeImage`. -/
structure ImgState where
  hasError : Bool
  isLoading : Bool
  retries : Nat
  currentSrc : String
  deriving DecidableEq, Repr

/-- The initial hook state for a given `src`, also produced by the
`useEffect` that resets everything when the `src` prop changes. -/
def initImgState (src : String) : ImgState :=
  { hasError := false, isLoading := true, retries := 0, currentSrc := src }

/-- The `useEffect([src])` body: reset `currentSrc`, `hasError`,
`isLoading` and `retries` for the new source. -/
def onSrcChange (newSrc : String) (_s : ImgState) : ImgState :=
  initImgState newSrc

/-- The cache-defeating URL built on the `n`-th retry at wall-clock time
`now`: `` `${src}?retry=${n}&t=${Date.now()}` ``. -/
def retryUrl (src : String) (n : Nat) (now : Nat) : String :=
  src ++ "?retry=" ++ toString n ++ "&t=" ++ toString now

/-- `handleError`: while `retries < retryCount`, schedule (after a delay of
`1000 * (retries + 1)` milliseconds) a state bumping the retry counter and
swapping in the cache-defeating URL; otherwise mark the terminal error
state.  Returns the new state together with the scheduled delay, if any. -/
def handleError (src : String) (retryCount : Nat) (now : Nat)
    (s : ImgState) : ImgState × Option Nat :=
  if s.retries < retryCount then
    ({ s with
        retries := s.retries + 1
        currentSrc := retryUrl src (s.retries + 1) now
        isLoading := true },
      some (1000 * (s.retries + 1)))
  else
    ({ s with hasError := true, isLoading := false }, none)

/-- `handleLoad`: a successful load clears the loading flag. -/
def handleLoad (s : ImgState) : ImgState :=
  { s with isLoading := false }

/-- What `SafeImage` renders: the caller-supplied fallback once
`hasError` is set, otherwise the image element for `currentSrc`. -/
inductive ImgView where
  | fallbackView
  | imageView (src : String) (loading : Bool)
  deriving DecidableEq, Repr

/-- The render function of `SafeImage`. -/
def renderImg (s : ImgState) : ImgView :=
  if s.hasError then .fallbackView else .imageView s.currentSrc s.isLoading

/-- Run a sequence of error events (with the given wall-clock times)
through `handleError`, keeping only the states. -/
def runErrors (src : String) (retryCount : Nat) :
    List Nat → ImgState → ImgState
  | [], s => s
  | t :: ts, s => runErrors src retryCount ts (handleError src retryCount t s).1

/-! ## Spec-side predicates (written from the specification's words, for
comparison with the source-derived definitions) -/

/-- The filter semantics as the specification words them: when `search` is
present, name OR unitNumber OR project contains it case-insensitively; when
`project` is present, the record's project contains it case-insensitively;
the conditions combine by AND, and with neither parameter present every
record matches (both conjuncts are vacuous). -/
def specFilterMatch (search proj : Option String) (a : Apartment) : Prop :=
  (∀ s, search = some s →
    (containsCI a.name s = true ∨ containsCI a.unitNumber s = true ∨
      containsCI a.project s = true)) ∧
  (∀ t, proj = some t → containsCI a.project t = true)

/-- The creation schema as the specification words it: every field required
and non-empty except `images`/`amenities` (which default to empty
sequences), every image entry a well-formed URL, `price` non-negative,
`area` strictly positive, and bedroom/bathroom counts non-negative
integers.  (It says nothing about amenity entries.) -/
def specCreateAccept (r : RawCreateInput) : Prop :=
  r.name ≠ "" ∧ r.unitNumber ≠ "" ∧ r.project ≠ "" ∧ r.address ≠ "" ∧
  r.city ≠ "" ∧ r.country ≠ "" ∧ r.description ≠ "" ∧
  (∀ u ∈ r.images.getD [], isValidURL u = true) ∧
  0 ≤ r.price ∧ 0 < r.area ∧
  r.bedrooms.den = 1 ∧ 0 ≤ r.bedrooms ∧
  r.bathrooms.den = 1 ∧ 0 ≤ r.bathrooms

/-! ## Concrete fixtures used by witnesses and counterexamples -/

/-- Sample row in project "Nile Towers". -/
def aptNile : Apartment :=
  ⟨"a1", "Nile View 1", "A-101", "Nile Towers", 2, 1, 100, 80,
    "1 St", "Cairo", "EG", "Nice flat", [], [], 10, 10⟩

/-- Sample row in project "Sunset Residences". -/
def aptSunset : Apartment :=
  ⟨"a2", "Sunset 2", "B-202", "Sunset Residences", 3, 2, 200, 120,
    "2 St", "Giza", "EG", "Bigger flat", [], [], 20, 20⟩

/-- Sample row whose project column is the empty string (representable:
the column is `TEXT NOT NULL` with no non-emptiness constraint). -/
def aptEmptyProj : Apartment :=
  ⟨"a4", "Blank", "D-404", "", 1, 1, 60, 45,
    "4 St", "Cairo", "EG", "Empty project name", [], [], 40, 40⟩

/-- Sample frontend item. -/
def cliA : ClientApartment :=
  ⟨"a1", "Alpha", "U1", "P", 1, 1, 100, 50,
    "addr", "Cairo", "EG", "d", [], [], "2024-01-01", "t1"⟩

/-- Second sample frontend item, distinct id and timestamp. -/
def cliB : ClientApartment :=
  ⟨"b2", "Beta", "U2", "P", 2, 1, 200, 60,
    "addr", "Giza", "EG", "d", [], [], "2024-01-02", "t2"⟩

/-- A creation payload that collides case-insensitively with `aptNile`. -/
def inputNileDup : CreateApartmentInput :=
  ⟨"New Unit", "a-101", "NILE TOWERS", 2, 1, 100, 80,
    "9 St", "Cairo", "EG", "dup", [], []⟩

/-- The same colliding payload in raw (pre-validation) form, as the
create controller receives it. -/
def rawNileDup : RawCreateInput :=
  ⟨"New Unit", "a-101", "NILE TOWERS", 2, 1, 100, 80,
    "9 St", "Cairo", "EG", "dup", none, none⟩

/-- A raw creation payload that satisfies every condition the specification
lists but carries an empty amenity entry. -/
def rawAmenBlank : RawCreateInput :=
  ⟨"A", "U1", "P", 2, 1, 100, 50, "addr", "Cairo", "EG", "d",
    none, some [""]⟩

/-! ## Helper lemmas -/

/-- With neither filter parameter present, the `where` clause is empty and
every row matches. -/
lemma whereMatches_none (p ps : Nat) (a : Apartment) :
    whereMatches ⟨none, none, p, ps⟩ a = true :=
  rfl

/-- `Math.ceil(total / pageSize)` agrees with natural ceiling division when
`pageSize ≥ 1`. -/
lemma jsCeilDiv_eq (t ps : Nat) (h : 1 ≤ ps) :
    jsCeilDiv t ps = (t + ps - 1) / ps := by
  have hmod := Nat.div_add_mod (t + ps - 1) ps
  have hmlt : (t + ps - 1) % ps < ps := Nat.mod_lt _ h
  set n := (t + ps - 1) / ps with hn
  have h1 : t ≤ ps * n := by omega
  have h2 : ps * n < t + ps := by omega
  have hpsQ : (0 : ℚ) < (ps : ℚ) := by exact_mod_cast h
  have hceil : ⌈(t : ℚ) / (ps : ℚ)⌉ = (n : ℤ) := by
    rw [Int.ceil_eq_iff]
    constructor
    · rw [lt_div_iff₀ hpsQ]
      have h2Q : (ps : ℚ) * (n : ℚ) < (t : ℚ) + (ps : ℚ) := by exact_mod_cast h2
      push_cast
      nlinarith
    · rw [div_le_iff₀ hpsQ]
      have h1Q : (t : ℚ) ≤ (ps : ℚ) * (n : ℚ) := by exact_mod_cast h1
      push_cast
      nlinarith
  unfold jsCeilDiv
  rw [hceil]
  exact Int.toNat_natCast n

/-- `createdDescLe` is transitive. -/
lemma createdDescLe_trans (a b c : Apartment) :
    createdDescLe a b → createdDescLe b c → createdDescLe a c := by
  simp only [createdDescLe, decide_eq_true_eq]
  omega

/-- `createdDescLe` is total. -/
lemma createdDescLe_total (a b : Apartment) :
    createdDescLe a b || createdDescLe b a := by
  simp only [createdDescLe, Bool.or_eq_true, decide_eq_true_eq]
  omega

/-- Unfolding the grid comparator over a pair of `cons` cells. -/
lemma gridPropsEqual_cons (x y : ClientApartment)
    (xs ys : List ClientApartment) :
    gridPropsEqual (x :: xs) (y :: ys) =
      ((x.id == y.id && x.updatedAt == y.updatedAt) &&
        gridPropsEqual xs ys) := by
  by_cases h : xs.length = ys.length
  · simp [gridPropsEqual, h]
  · simp [gridPropsEqual, h]

/-- The grid comparator succeeds exactly when the two lists project to the
same *sequence* of `(id, updatedAt)` pairs. -/
lemma gridPropsEqual_iff_map (prev next : List ClientApartment) :
    gridPropsEqual prev next = true ↔
      prev.map itemKey = next.map itemKey := by
  induction prev generalizing next with
  | nil =>
    cases next with
    | nil => simp [gridPropsEqual]
    | cons y ys => simp [gridPropsEqual]
  | cons x xs ih =>
    cases next with
    | nil => simp [gridPropsEqual]
    | cons y ys =>
      rw [gridPropsEqual_cons]
      simp only [Bool.and_eq_true, beq_iff_eq, List.map_cons, List.cons.injEq,
        ih, itemKey, Prod.mk.injEq]

/-- In the listing `where` clause, the truthy `search` OR-group matches
exactly as the specification's disjunction words it. -/
lemma searchMatches_iff (s : String) (a : Apartment) :
    searchMatches s a = true ↔
      (containsCI a.name s = true ∨ containsCI a.unitNumber s = true ∨
        containsCI a.project s = true) := by
  simp [searchMatches, Bool.or_eq_true, or_assoc]

/-- In the listing `where` clause, the truthy `project` condition matches
exactly as the specification words it. -/
lemma projectMatches_iff (t : String) (a : Apartment) :
    projectMatches t a = true ↔ containsCI a.project t = true :=
  Iff.rfl

/-- Every string case-insensitively contains the empty string. -/
lemma containsCI_empty (hay : String) : containsCI hay "" = true := by
  unfold containsCI lowerChars
  simp

/-- Membership is preserved by `Set`-style deduplication. -/
lemma mem_jsSetDedup {α : Type} [DecidableEq α] :
    ∀ (l : List α) (x : α), x ∈ jsSetDedup l ↔ x ∈ l
  | [], x => by simp [jsSetDedup]
  | y :: ys, x => by
    rw [jsSetDedup]
    have ih := mem_jsSetDedup (ys.filter (· ≠ y)) x
    by_cases hxy : x = y
    · simp [hxy]
    · simp only [List.mem_cons, ih, List.mem_filter, hxy, false_or,
        decide_eq_true_eq, ne_eq]
      tauto
termination_by l => l.length
decreasing_by
  simpa using Nat.lt_succ_of_le (List.length_filter_le _ ys)

/-- `Set`-style deduplication yields a duplicate-free list. -/
lemma nodup_jsSetDedup {α : Type} [DecidableEq α] :
    ∀ l : List α, (jsSetDedup l).Nodup
  | [] => by simp [jsSetDedup]
  | y :: ys => by
    rw [jsSetDedup]
    refine List.nodup_cons.mpr ⟨fun hmem => ?_, nodup_jsSetDedup _⟩
    rw [mem_jsSetDedup] at hmem
    have := (List.mem_filter.mp hmem).2
    simp at this
termination_by l => l.length
decreasing_by
  simpa using Nat.lt_succ_of_le (List.length_filter_le _ ys)

/-- `strLe` is transitive. -/
lemma strLe_trans (a b c : String) :
    strLe a b → strLe b c → strLe a c := by
  simp only [strLe, decide_eq_true_eq]
  exact le_trans

/-- `strLe` is total. -/
lemma strLe_total (a b : String) : strLe a b || strLe b a := by
  simp only [strLe, Bool.or_eq_true, decide_eq_true_eq]
  exact le_total a b

/-- One error event never pushes the retry counter past the bound. -/
lemma handleError_retries_le (src : String) (rc now : Nat) (s : ImgState)
    (h : s.retries ≤ rc) : (handleError src rc now s).1.retries ≤ rc := by
  by_cases hlt : s.retries < rc <;> simp [handleError, hlt] <;> omega

/-- The retry counter stays bounded along any sequence of error events. -/
lemma runErrors_retries_bounded (src : String) (rc : Nat) :
    ∀ (ts : List Nat) (s : ImgState), s.retries ≤ rc →
      (runErrors src rc ts s).retries ≤ rc
  | [], _, h => h
  | t :: ts, s, h =>
    runErrors_retries_bounded src rc ts _
      (handleError_retries_le src rc t s h)

/-- The terminal error flag is never cleared by further error events. -/
lemma runErrors_hasError_mono (src : String) (rc : Nat) :
    ∀ (ts : List Nat) (s : ImgState), s.hasError = true →
      (runErrors src rc ts s).hasError = true
  | [], _, h => h
  | t :: ts, s, h =>
    runErrors_hasError_mono src rc ts _
      (by by_cases hlt : s.retries < rc <;> simp [handleError, hlt, h])

/-- Enough error events exhaust the retry budget and set the error flag. -/
lemma runErrors_exhausts (src : String) (rc : Nat) :
    ∀ (ts : List Nat) (s : ImgState), s.retries ≤ rc →
      rc < s.retries + ts.length →
      (runErrors src rc ts s).hasError = true
  | [], s, hle, hlt => by simp at hlt; omega
  | t :: ts, s, hle, hlt => by
    by_cases hlt2 : s.retries < rc
    · have step : (handleError src rc t s).1.retries = s.retries + 1 := by
        simp [handleError, hlt2]
      refine runErrors_exhausts src rc ts _ ?_ ?_
      · rw [step]; omega
      · rw [step]; simp at hlt; omega
    · have step : (handleError src rc t s).1.hasError = true := by
        simp [handleError, hlt2]
      exact runErrors_hasError_mono src rc ts _ step

/-- The cache-defeating retry URL is the source URL with a query string
appended. -/
lemma retryUrl_query (src : String) (n now : Nat) :
    retryUrl src n now =
      src ++ "?" ++ ("retry=" ++ toString n ++ "&t=" ++ toString now) := by
  unfold retryUrl
  have h : ("?retry=" : String) = "?" ++ "retry=" := by decide
  simp only [String.append_assoc]
  rw [h, String.append_assoc]

/-! ## Claim theorems -/

/-- **C4.** For every listing request whose query parameters are invalid
(non-numeric, out of range, or non-integer `page`/`pageSize`), the
controller responds with a validation error (HTTP 400), and its response
is independent of the data store — no query against the store is consulted. -/
theorem invalid_query_rejected_before_db (raw : RawListQuery)
    (store : List Apartment) (h : parseListQuery raw = none) :
    listApartmentsController raw store = .badRequest ∧
      ∀ store', listApartmentsController raw store =
        listApartmentsController raw store' := by
  refine ⟨?_, fun store' => ?_⟩ <;> simp [listApartmentsController, h]

/-- Witness for C4: a non-numeric `page` is rejected with HTTP 400. -/
theorem invalid_query_rejected_before_db_witness :
    listApartmentsController ⟨none, none, some "abc", none⟩ [] =
      .badRequest :=
  (invalid_query_rejected_before_db ⟨none, none, some "abc", none⟩ []
    (by rfl)).1

/-- **C10.** A bare listing request (no `page`/`pageSize` parameters) is not
rejected: the schema defaults `page` to 1 and `pageSize` to 10, and the
controller returns the first page — the 10 newest records, in
creation-time descending order, with at most 10 items. -/
theorem bare_listing_defaults (store : List Apartment) :
    parseListQuery ⟨none, none, none, none⟩ =
      some ⟨none, none, 1, 10⟩ ∧
    listApartmentsController ⟨none, none, none, none⟩ store =
      .ok (listApartments ⟨none, none, 1, 10⟩ store) ∧
    (listApartments ⟨none, none, 1, 10⟩ store).items =
      (store.mergeSort createdDescLe).take 10 ∧
    (listApartments ⟨none, none, 1, 10⟩ store).items.length ≤ 10 ∧
    (listApartments ⟨none, none, 1, 10⟩ store).items.Pairwise
      (fun a b => b.createdAt ≤ a.createdAt) ∧
    (listApartments ⟨none, none, 1, 10⟩ store).meta.page = 1 ∧
    (listApartments ⟨none, none, 1, 10⟩ store).meta.pageSize = 10 := by
  have hfilter :
      store.filter (whereMatches ⟨none, none, 1, 10⟩) = store :=
    List.filter_eq_self.mpr fun a _ => whereMatches_none 1 10 a
  have hitems :
      (listApartments ⟨none, none, 1, 10⟩ store).items =
        (store.mergeSort createdDescLe).take 10 := by
    simp [listApartments, hfilter]
  refine ⟨by decide, rfl, hitems, ?_, ?_, rfl, rfl⟩
  · rw [hitems]
    exact List.length_take_le _ _
  · rw [hitems]
    have hs : (store.mergeSort createdDescLe).Pairwise
        (fun a b => createdDescLe a b) :=
      List.sorted_mergeSort createdDescLe_trans createdDescLe_total store
    refine ((hs.sublist (List.take_sublist _ _)).imp ?_)
    intro a b hab
    simpa [createdDescLe] using hab

/-- **C7.** In the client pagination state machine, every filter change
resets the page to 1; the previous-page transition never takes the page
below 1; the next-page transition never takes it above the last known
`totalPages`; and from any state with the page in `[1, totalPages]`, any
transition keeps it in range. -/
theorem client_page_transitions :
    (∀ st s p, (clientStep st (.filterChange s p)).page = 1) ∧
    (∀ st, 1 ≤ (clientStep st .prev).page) ∧
    (∀ st, (clientStep st .next).page ≤ st.totalPages) ∧
    (∀ st e, 1 ≤ st.page → st.page ≤ st.totalPages →
      1 ≤ (clientStep st e).page ∧
        (clientStep st e).page ≤ (clientStep st e).totalPages) := by
  refine ⟨fun st s p => rfl, fun st => le_max_left _ _,
    fun st => min_le_left _ _, fun st e h1 h2 => ?_⟩
  cases e <;> simp [clientStep] <;> omega

/-- **C1.** For every valid listing query (`page ≥ 1`,
`pageSize ∈ [1,100]`), the returned items are the
`skip = (page-1)*pageSize` / `take = pageSize` slice of the filtered,
newest-first result set; hence at most `pageSize` items come back;
`meta.total` is the count of records matching the filters; and
`meta.totalPages = ceil(total / pageSize)` (equivalently, natural ceiling
division). -/
theorem listApartments_pagination (q : ListApartmentQuery)
    (store : List Apartment) (hp : 1 ≤ q.page) (hs1 : 1 ≤ q.pageSize)
    (hs2 : q.pageSize ≤ 100) :
    (listApartments q store).items =
      (((store.filter (whereMatches q)).mergeSort createdDescLe).drop
        ((q.page - 1) * q.pageSize)).take q.pageSize ∧
    (listApartments q store).items.length ≤ q.pageSize ∧
    (listApartments q store).meta.total =
      (store.filter (whereMatches q)).length ∧
    (listApartments q store).meta.totalPages =
      (⌈((listApartments q store).meta.total : ℚ) / (q.pageSize : ℚ)⌉).toNat ∧
    (listApartments q store).meta.totalPages =
      ((listApartments q store).meta.total + q.pageSize - 1) / q.pageSize := by
  refine ⟨rfl, List.length_take_le _ _, rfl, rfl, ?_⟩
  exact jsCeilDiv_eq _ _ hs1

/-- Witness for C1: a concrete valid query against a two-row store. -/
theorem listApartments_pagination_witness :
    (listApartments ⟨some "nile", none, 1, 9⟩ [aptNile, aptSunset]).items.length ≤ 9 ∧
    (listApartments ⟨some "nile", none, 1, 9⟩ [aptNile, aptSunset]).meta.totalPages =
      ((listApartments ⟨some "nile", none, 1, 9⟩
        [aptNile, aptSunset]).meta.total + 9 - 1) / 9 :=
  ⟨(listApartments_pagination ⟨some "nile", none, 1, 9⟩ [aptNile, aptSunset]
      (by decide) (by decide) (by decide)).2.1,
    (listApartments_pagination ⟨some "nile", none, 1, 9⟩ [aptNile, aptSunset]
      (by decide) (by decide) (by decide)).2.2.2.2⟩

/-- **C3 (code bug).** At the failing input — re-creating unit `a-101` of
project `NILE TOWERS`, a case-variant of the stored `A-101` /
`Nile Towers` — the service does throw `HttpError(409, ...)` and performs
no insert (the store is unchanged), **but** the create controller only
calls `next(error)` and the `errorHandler` middleware answers
`500 'Internal server error'`: the caller receives exactly the generic
server error the claim rules out, not a 409 conflict. -/
theorem create_conflict_generic_500 :
    (createApartment inputNileDup "new-id" 99 [aptNile, aptSunset]).outcome =
      .error ⟨409,
        "Apartment with the same unit number already exists in this project"⟩ ∧
    (createApartment inputNileDup "new-id" 99
      [aptNile, aptSunset]).store = [aptNile, aptSunset] ∧
    createApartmentCheck rawNileDup = some inputNileDup ∧
    (createApartmentController rawNileDup "new-id" 99
      [aptNile, aptSunset]).1 = .errorResponse 500 "Internal server error" ∧
    (createApartmentController rawNileDup "new-id" 99
      [aptNile, aptSunset]).2 = [aptNile, aptSunset] := by
  have hc : [aptNile, aptSunset].any (pairConflict inputNileDup) = true := by
    decide
  have hchk : createApartmentCheck rawNileDup = some inputNileDup := by
    decide
  refine ⟨by simp [createApartment, hc], by simp [createApartment, hc], hchk,
    ?_, ?_⟩ <;>
    simp [createApartmentController, hchk, createApartment, hc, errorHandler]

/-- **C8 (counterexample).** Two item lists with the *same set* of
`(identifier, updatedAt)` pairs, merely reordered, are judged *different*
by the grid's memo comparator, so the grid re-renders: equality of the set
of pairs does not imply the guard judges the lists equal. -/
theorem grid_set_equality_insufficient :
    ([cliA, cliB].map itemKey).toFinset =
      ([cliB, cliA].map itemKey).toFinset ∧
    gridPropsEqual [cliA, cliB] [cliB, cliA] = false ∧
    gridRerenders [cliA, cliB] [cliB, cliA] = true := by
  refine ⟨by decide, by decide, by decide⟩

/-- **C8 (amended).** The grid's re-render guard judges two item lists
equal — and the grid skips re-rendering — exactly when the two lists have
the same *sequence* of `(identifier, last-updated timestamp)` pairs; in
particular a mere change of array reference with identical items does not
re-render. -/
theorem grid_rerender_guard (prev next : List ClientApartment) :
    (gridPropsEqual prev next = true ↔
      prev.map itemKey = next.map itemKey) ∧
    (gridRerenders prev next = false ↔
      prev.map itemKey = next.map itemKey) := by
  have h := gridPropsEqual_iff_map prev next
  refine ⟨h, ?_⟩
  rw [← h]
  simp [gridRerenders]

/-- **C2.** For every listing query and record, the record is in the
filtered result set iff: when `search` is present, its name OR unitNumber
OR project contains the search string case-insensitively, AND when
`project` is present, its project contains the project string
case-insensitively; with neither parameter present every record matches.
(An empty-string parameter is skipped by the code's truthiness guard, but
the empty string is contained in every column, so the two sides agree on
it.) -/
theorem filter_semantics (q : ListApartmentQuery) (a : Apartment) :
    (whereMatches q a = true ↔ specFilterMatch q.search q.project a) ∧
    (q.search = none → q.project = none → whereMatches q a = true) := by
  constructor
  · constructor
    · intro h
      rw [whereMatches, Bool.and_eq_true] at h
      obtain ⟨h1, h2⟩ := h
      constructor
      · intro s hs
        by_cases hne : s = ""
        · subst hne
          exact Or.inl (containsCI_empty a.name)
        · have ht : strTruthy q.search = true := by
            simp [strTruthy, hs, hne]
          rw [ht, if_pos rfl, hs] at h1
          exact (searchMatches_iff s a).mp h1
      · intro t ht
        by_cases hne : t = ""
        · subst hne
          exact containsCI_empty a.project
        · have htr : strTruthy q.project = true := by
            simp [strTruthy, ht, hne]
          rw [htr, if_pos rfl, ht] at h2
          exact (projectMatches_iff t a).mp h2
    · rintro ⟨hs, hp⟩
      rw [whereMatches, Bool.and_eq_true]
      constructor
      · cases hq : q.search with
        | none => simp [strTruthy]
        | some s =>
          by_cases hne : s = ""
          · simp [strTruthy, hne]
          · have hm := hs s hq
            have ht : strTruthy (some s) = true := by
              simp [strTruthy, hne]
            rw [ht, if_pos rfl]
            exact (searchMatches_iff s a).mpr hm
      · cases hq : q.project with
        | none => simp [strTruthy]
        | some t =>
          by_cases hne : t = ""
          · simp [strTruthy, hne]
          · have hm := hp t hq
            have ht : strTruthy (some t) = true := by
              simp [strTruthy, hne]
            rw [ht, if_pos rfl]
            exact (projectMatches_iff t a).mpr hm
  · intro h1 h2
    simp [whereMatches, h1, h2, strTruthy]

/-- Witness for C2: with neither filter parameter present, a concrete
record matches. -/
theorem filter_semantics_witness :
    whereMatches ⟨none, none, 1, 10⟩ aptNile = true :=
  (filter_semantics ⟨none, none, 1, 10⟩ aptNile).2 rfl rfl

/-- Witness for C7: from page 2 of 3, pressing Next keeps the page in
range. -/
theorem client_page_transitions_witness :
    1 ≤ (clientStep ⟨"a", "b", 2, 3⟩ .next).page ∧
      (clientStep ⟨"a", "b", 2, 3⟩ .next).page ≤
        (clientStep ⟨"a", "b", 2, 3⟩ .next).totalPages :=
  client_page_transitions.2.2.2 ⟨"a", "b", 2, 3⟩ .next (by decide) (by decide)

/-- **C5 (counterexample).** A record whose project column is the empty
string: `""` is a (non-null) project name appearing in a record, yet
`.filter(Boolean)` drops it, so the service does not return "exactly the
set of all project names ... with no null entries" as claimed. -/
theorem listProjects_drops_empty_name :
    [aptEmptyProj].map (·.project) = [""] ∧
    listProjects [aptEmptyProj] = [] := by
  constructor
  · simp [aptEmptyProj]
  · simp [listProjects, jsSetDedup, jsStrTruthy, aptEmptyProj,
      List.filter_cons]

/-- **C5 (amended).** For every store, the project enumeration returns
exactly the set of *non-null, non-empty* project names appearing in any
record (for this `NOT NULL` column: the non-empty ones), with no
duplicates and sorted lexicographically ascending, independent of
pagination or filters (it takes no such input). -/
theorem listProjects_sorted_dedup (store : List Apartment) :
    (∀ s, s ∈ listProjects store ↔
      s ∈ store.map (·.project) ∧ s ≠ "") ∧
    (listProjects store).Nodup ∧
    (listProjects store).Pairwise (· ≤ ·) := by
  have hperm := List.mergeSort_perm
    ((jsSetDedup (store.map (·.project))).filter jsStrTruthy) strLe
  refine ⟨fun s => ?_, ?_, ?_⟩
  · rw [listProjects]
    rw [hperm.mem_iff]
    simp [List.mem_filter, mem_jsSetDedup, jsStrTruthy]
  · rw [listProjects]
    rw [hperm.nodup_iff]
    exact (nodup_jsSetDedup _).filter _
  · rw [listProjects]
    have hs := List.sorted_mergeSort strLe_trans strLe_total
      ((jsSetDedup (store.map (·.project))).filter jsStrTruthy)
    exact hs.imp fun {a b} h => by simpa [strLe] using h

/-- **C6 (counterexample).** A payload satisfying everything the claim's
schema description lists (all required fields non-empty, URLs fine,
numeric bounds fine) but carrying an empty amenity entry is nonetheless
rejected by the validator, before any database access. -/
theorem create_schema_counterexample :
    specCreateAccept rawAmenBlank ∧
    createApartmentCheck rawAmenBlank = none ∧
    createApartmentController rawAmenBlank "id" 0 [] = (.badRequest, []) := by
  refine ⟨?_, by decide, by decide⟩
  unfold specCreateAccept
  decide

/-- **C6 (amended).** The creation validator accepts a (typed) input iff
it satisfies the schema as the claim describes it *and additionally every
amenity entry is non-empty*; and whenever validation fails the controller
responds 400 with the store untouched (no database access). -/
theorem create_schema_validation (r : RawCreateInput) :
    ((createApartmentCheck r).isSome ↔
      (specCreateAccept r ∧ ∀ a ∈ r.amenities.getD [], a ≠ "")) ∧
    (createApartmentCheck r = none →
      ∀ newId now store,
        createApartmentController r newId now store = (.badRequest, store)) := by
  constructor
  · rw [createApartmentCheck]
    split
    case isTrue h =>
      obtain ⟨h1, h2, h3, h4, h5, h6, h7, h8, h9, h10, h11, h12, h13, h14,
        h15⟩ := h
      simp only [Option.isSome_some, true_iff]
      refine ⟨⟨h1, h2, h3, h10, h11, h12, h13, ?_, h8, h9, h4, h5, h6, h7⟩, ?_⟩
      · simpa using h14
      · simpa using h15
    case isFalse h =>
      simp only [Option.isSome_none, Bool.false_eq_true, false_iff]
      rintro ⟨⟨n1, n2, n3, n4, n5, n6, n7, himg, hprice, harea, hb1, hb2,
        ht1, ht2⟩, hamen⟩
      exact h ⟨n1, n2, n3, hb1, hb2, ht1, ht2, hprice, harea, n4, n5, n6, n7,
        by simpa using himg, by simpa using hamen⟩
  · intro hnone newId now store
    simp [createApartmentController, hnone]

/-- Witness for the amended C6: the empty-amenity payload is turned away
with HTTP 400 and an unchanged (empty) store. -/
theorem create_schema_validation_witness :
    createApartmentController rawAmenBlank "w-id" 7 [] =
      (.badRequest, []) :=
  (create_schema_validation rawAmenBlank).2 (by decide) "w-id" 7 []

/-- **C9.** The resilient image loader: (1) the retry counter — and hence
the number of retry attempts — never exceeds the configured `retryCount`;
(2) consecutive retries are scheduled after strictly increasing delays;
(3) every retry swaps in the source URL with a cache-defeating query
string appended; (4) once the budget is exhausted an error event sets the
terminal error flag and the fallback view renders; (5) hence the process
terminates: any run of more than `retryCount` error events ends in the
fallback view; (6) a change of the `src` prop resets all retry state. -/
theorem safeImage_retry (src : String) (rc : Nat) :
    (∀ ts : List Nat,
      (runErrors src rc ts (initImgState src)).retries ≤ rc) ∧
    (∀ (s : ImgState) (now now' d d' : Nat),
      (handleError src rc now s).2 = some d →
      (handleError src rc now' (handleError src rc now s).1).2 = some d' →
      d < d') ∧
    (∀ (s : ImgState) (now : Nat), s.retries < rc →
      (handleError src rc now s).1.currentSrc =
        retryUrl src (s.retries + 1) now ∧
      ∃ qs, (handleError src rc now s).1.currentSrc = src ++ "?" ++ qs) ∧
    (∀ (s : ImgState) (now : Nat), rc ≤ s.retries →
      (handleError src rc now s).1.hasError = true ∧
      renderImg (handleError src rc now s).1 = .fallbackView) ∧
    (∀ ts : List Nat, rc < ts.length →
      (runErrors src rc ts (initImgState src)).hasError = true ∧
      renderImg (runErrors src rc ts (initImgState src)) = .fallbackView) ∧
    (∀ (s : ImgState) (newSrc : String),
      onSrcChange newSrc s = initImgState newSrc) := by
  refine ⟨?_, ?_, ?_, ?_, ?_, fun s newSrc => rfl⟩
  · intro ts
    exact runErrors_retries_bounded src rc ts _ (by simp [initImgState])
  · intro s now now' d d' h1 h2
    by_cases hlt : s.retries < rc
    · simp only [handleError, hlt, if_true, if_pos hlt] at h1
      by_cases hlt2 : s.retries + 1 < rc
      · simp [handleError, hlt, hlt2] at h1 h2
        omega
      · simp [handleError, hlt, hlt2] at h2
    · simp [handleError, hlt] at h1
  · intro s now hlt
    refine ⟨by simp [handleError, hlt], ?_⟩
    exact ⟨"retry=" ++ toString (s.retries + 1) ++ "&t=" ++ toString now,
      by simp [handleError, hlt, retryUrl_query]⟩
  · intro s now hge
    have hnlt : ¬ s.retries < rc := by omega
    constructor
    · simp [handleError, hnlt]
    · simp [handleError, hnlt, renderImg]
  · intro ts hlen
    have herr : (runErrors src rc ts (initImgState src)).hasError = true := by
      refine runErrors_exhausts src rc ts _ (by simp [initImgState]) ?_
      simpa [initImgState] using hlen
    exact ⟨herr, by simp [renderImg, herr]⟩

/-- Witness for C9: with a retry budget of 2, three consecutive error
events end in the fallback view. -/
theorem safeImage_retry_witness :
    (runErrors "http://a/b.png" 2 [1, 2, 3]
      (initImgState "http://a/b.png")).hasError = true ∧
    renderImg (runErrors "http://a/b.png" 2 [1, 2, 3]
      (initImgState "http://a/b.png")) = .fallbackView :=
  (safeImage_retry "http://a/b.png" 2).2.2.2.2.1 [1, 2, 3] (by decide)

end Nawy
